import Mathlib

/-!
Shallow embedding of the LC-3 virtual machine core (`src/main.c`) and
verification of the frozen specification claims against it.

Machine words are modelled as `Nat`; every place where the C code converts a
wider arithmetic result back to `uint16_t` is modelled by an explicit
`% 65536`.  The process-wide `memory[]` and `reg[]` arrays become total
functions `Nat → Nat` inside a `VM` state record; standard input is a list of
pending bytes and standard output a list of emitted bytes.
-/

/-- Constant `UINT16_MAX` as used by the C source (65535). -/
def UINT16_MAX : Nat := 65535

/-- Number of cells of the C array `uint16_t memory[UINT16_MAX]` (the
declaration allocates `UINT16_MAX` = 65535 words, despite the adjacent
comment "65536 locations"). -/
def memoryLength : Nat := UINT16_MAX

/- Register indices, from the `enum { R_R0, ... }` in the source. -/

def R_R0 : Nat := 0
def R_R1 : Nat := 1
def R_R2 : Nat := 2
def R_R3 : Nat := 3
def R_R4 : Nat := 4
def R_R5 : Nat := 5
def R_R6 : Nat := 6
def R_R7 : Nat := 7
def R_PC : Nat := 8
def R_COND : Nat := 9
def R_COUNT : Nat := 10

/- Opcodes, from the `enum { OP_BR = 0, ... }` in the source. -/

def OP_BR : Nat := 0
def OP_ADD : Nat := 1
def OP_LD : Nat := 2
def OP_ST : Nat := 3
def OP_JSR : Nat := 4
def OP_AND : Nat := 5
def OP_LDR : Nat := 6
def OP_STR : Nat := 7
def OP_RTI : Nat := 8
def OP_NOT : Nat := 9
def OP_LDI : Nat := 10
def OP_STI : Nat := 11
def OP_JMP : Nat := 12
def OP_RES : Nat := 13
def OP_LEA : Nat := 14
def OP_TRAP : Nat := 15

/- Condition flags. -/

def FL_POS : Nat := 1
def FL_ZRO : Nat := 2
def FL_NEG : Nat := 4

/- Trap codes. -/

def TRAP_GETC : Nat := 0x20
def TRAP_OUT : Nat := 0x21
def TRAP_PUTS : Nat := 0x22
def TRAP_IN : Nat := 0x23
def TRAP_PUTSP : Nat := 0x24
def TRAP_HALT : Nat := 0x25

/- Memory mapped registers. -/

def MR_KBSR : Nat := 0xFE00
def MR_KBDR : Nat := 0xFE02

/-- `sign_extend` from the source: widen a `bit_count`-bit value to 16 bits,
keeping the sign bit.  The C assignment `x |= (0xFFFF << bit_count)` stores
an `int` result into a `uint16_t`, hence the `% 65536`. -/
def sign_extend (x : Nat) (bit_count : Nat) : Nat :=
  if (x >>> (bit_count - 1)) &&& 1 ≠ 0 then
    (x ||| (0xFFFF <<< bit_count)) % 65536
  else x

/-- `swap16` from the source: `(x << 8) | (x >> 8)` truncated to 16 bits by
the `uint16_t` return type. -/
def swap16 (x : Nat) : Nat :=
  ((x <<< 8) ||| (x >>> 8)) % 65536

/-- The machine state: the process-wide arrays `memory[]` and `reg[]` plus the
standard input (pending bytes) and standard output (emitted bytes) streams. -/
structure VM where
  mem : Nat → Nat
  reg : Nat → Nat
  input : List Nat
  output : List Nat

/-- Pointwise array update, modelling `a[i] = v`. -/
def writeArr (f : Nat → Nat) (i v : Nat) : Nat → Nat :=
  fun j => if j = i then v else f j

/-- `reg[r] = v`. -/
def setReg (s : VM) (r v : Nat) : VM :=
  { s with reg := writeArr s.reg r v }

/-- `mem_write` from the source: `memory[address] = val`. -/
def mem_write (s : VM) (address val : Nat) : VM :=
  { s with mem := writeArr s.mem address val }

/-- Append bytes to standard output. -/
def putOut (s : VM) (bs : List Nat) : VM :=
  { s with output := s.output ++ bs }

/-- ASCII bytes of the prompt printed by TRAP IN, "Enter a character: ". -/
def promptMsg : List Nat :=
  [69, 110, 116, 101, 114, 32, 97, 32, 99, 104, 97, 114, 97, 99, 116, 101, 114, 58, 32]

/-- ASCII bytes printed by TRAP HALT: "HALT" followed by the newline that
`puts` appends. -/
def haltMsg : List Nat :=
  [72, 65, 76, 84, 10]

/-- ASCII bytes of the diagnostic "Program counter overflow!". -/
def overflowMsg : List Nat :=
  [80, 114, 111, 103, 114, 97, 109, 32, 99, 111, 117, 110, 116, 101, 114, 32,
   111, 118, 101, 114, 102, 108, 111, 119, 33]

/-- `update_flags` from the source: set `reg[R_COND]` from the value of
`reg[r]` (Z if zero, N if bit 15 set, P otherwise). -/
def update_flags (s : VM) (r : Nat) : VM :=
  if s.reg r = 0 then setReg s R_COND FL_ZRO
  else if s.reg r >>> 15 ≠ 0 then setReg s R_COND FL_NEG
  else setReg s R_COND FL_POS

/-- `mem_read` from the source.  Reading `MR_KBSR` polls standard input
(`check_key` is "a byte is pending", i.e. the input list is nonempty); if a
byte is pending it is consumed by `getchar()` and stored into `MR_KBDR`
(the `int` result is stored into the `uint16_t` array, hence `% 65536`),
and `MR_KBSR` gets bit 15 set; otherwise `MR_KBSR` is cleared.  The value
returned is `memory[address]` after these updates. -/
def mem_read (s : VM) (address : Nat) : VM × Nat :=
  if address = MR_KBSR then
    match s.input with
    | c :: rest =>
      let s := { s with input := rest }
      let s := mem_write s MR_KBSR (1 <<< 15)
      let s := mem_write s MR_KBDR (c % 65536)
      (s, s.mem address)
    | [] =>
      let s := mem_write s MR_KBSR 0
      (s, s.mem address)
  else (s, s.mem address)

/-- The loop of `TRAP_PUTS`: walk memory from `addr`, emitting
`(char)(*word & 0x8)` for each nonzero word, stopping at the first zero
word.  The C loop has no bound of its own (it walks raw pointers); `fuel`
bounds the recursion and is instantiated with the full address-space size,
which covers every terminating execution inside the array. -/
def trap_puts_bytes (mem : Nat → Nat) : Nat → Nat → List Nat
  | _, 0 => []
  | addr, fuel + 1 =>
    if mem addr ≠ 0 then (mem addr &&& 0x8) :: trap_puts_bytes mem (addr + 1) fuel
    else []

/-- The loop of `TRAP_PUTSP`: for each nonzero word emit
`(char)(*word & 0x8)`, then the high byte `(char)(*word >> 8)` if it is
nonzero.  Fuel as in `trap_puts_bytes`. -/
def trap_putsp_bytes (mem : Nat → Nat) : Nat → Nat → List Nat
  | _, 0 => []
  | addr, fuel + 1 =>
    if mem addr ≠ 0 then
      ((mem addr &&& 0x8) ::
        (if (mem addr >>> 8) % 256 ≠ 0 then [(mem addr >>> 8) % 256] else [])) ++
        trap_putsp_bytes mem (addr + 1) fuel
    else []

/-- The body of the opcode `switch` in `read_and_execute_instruction`.
Returns `none` for the `abort()` cases (`OP_RES`, `OP_RTI`, `default`) and
otherwise `some (state, running)` where `running` is the value the local
`running` flag has after the handler (0 only for `TRAP_HALT`). -/
def exec_instr (s : VM) (instr : Nat) : Option (VM × Nat) :=
  let op := instr >>> 12
  if op = OP_ADD then
    let dr := (instr >>> 9) &&& 0x7
    let sr1 := (instr >>> 6) &&& 0x7
    let imm_flag := (instr >>> 5) &&& 0x1
    let s :=
      if imm_flag ≠ 0 then
        let imm5 := sign_extend (instr &&& 0x1F) 5
        setReg s dr ((s.reg sr1 + imm5) % 65536)
      else
        let sr2 := instr &&& 0x7
        setReg s dr ((s.reg sr1 + s.reg sr2) % 65536)
    some (update_flags s dr, 1)
  else if op = OP_AND then
    let dr := (instr >>> 9) &&& 0x7
    let sr1 := (instr >>> 6) &&& 0x7
    let imm_flag := (instr >>> 5) &&& 0x1
    let s :=
      if imm_flag ≠ 0 then
        let imm5 := sign_extend (instr &&& 0x1F) 5
        setReg s dr ((s.reg sr1 &&& imm5) % 65536)
      else
        let sr2 := instr &&& 0x7
        setReg s dr ((s.reg sr1 &&& s.reg sr2) % 65536)
    some (update_flags s dr, 1)
  else if op = OP_NOT then
    let dr := (instr >>> 9) &&& 0x7
    let sr := (instr >>> 6) &&& 0x7
    let s := setReg s dr ((s.reg sr ^^^ 0xFFFF) % 65536)
    some (update_flags s dr, 1)
  else if op = OP_BR then
    let n_flag := (instr >>> 11) &&& 0x1
    let z_flag := (instr >>> 10) &&& 0x1
    let p_flag := (instr >>> 9) &&& 0x1
    let pc_offset := sign_extend (instr &&& 0x1FF) 9
    if (n_flag ≠ 0 ∧ s.reg R_COND &&& FL_NEG ≠ 0) ∨
       (z_flag ≠ 0 ∧ s.reg R_COND &&& FL_ZRO ≠ 0) ∨
       (p_flag ≠ 0 ∧ s.reg R_COND &&& FL_POS ≠ 0) then
      some (setReg s R_PC ((s.reg R_PC + pc_offset) % 65536), 1)
    else
      some (s, 1)
  else if op = OP_JMP then
    let base_r := (instr >>> 6) &&& 0x7
    some (setReg s R_PC (s.reg base_r), 1)
  else if op = OP_JSR then
    let s := setReg s R_R7 (s.reg R_PC)
    let imm_flag := (instr >>> 11) &&& 0x1
    if imm_flag ≠ 0 then
      let pc_offset := sign_extend (instr &&& 0x7FF) 11
      some (setReg s R_PC ((s.reg R_PC + pc_offset) % 65536), 1)
    else
      let base_r := (instr >>> 6) &&& 0x7
      some (setReg s R_PC (s.reg base_r), 1)
  else if op = OP_LD then
    let dr := (instr >>> 9) &&& 0x7
    let pc_offset := sign_extend (instr &&& 0x1FF) 9
    match mem_read s ((s.reg R_PC + pc_offset) % 65536) with
    | (s, v) => some (update_flags (setReg s dr v) dr, 1)
  else if op = OP_LDI then
    let dr := (instr >>> 9) &&& 0x7
    let pc_offset := sign_extend (instr &&& 0x1FF) 9
    match mem_read s ((s.reg R_PC + pc_offset) % 65536) with
    | (s, a) =>
      match mem_read s a with
      | (s, v) => some (update_flags (setReg s dr v) dr, 1)
  else if op = OP_LDR then
    let dr := (instr >>> 9) &&& 0x7
    let base_r := (instr >>> 6) &&& 0x7
    let offset := sign_extend (instr &&& 0x3F) 6
    match mem_read s ((s.reg base_r + offset) % 65536) with
    | (s, v) => some (update_flags (setReg s dr v) dr, 1)
  else if op = OP_LEA then
    let dr := (instr >>> 9) &&& 0x7
    let pc_offset := sign_extend (instr &&& 0x1FF) 9
    let s := setReg s dr ((s.reg R_PC + pc_offset) % 65536)
    some (update_flags s dr, 1)
  else if op = OP_ST then
    let sr := (instr >>> 9) &&& 0x7
    let pc_offset := sign_extend (instr &&& 0x1FF) 9
    some (mem_write s ((s.reg R_PC + pc_offset) % 65536) (s.reg sr), 1)
  else if op = OP_STI then
    let sr := (instr >>> 9) &&& 0x7
    let pc_offset := sign_extend (instr &&& 0x1FF) 9
    match mem_read s ((s.reg R_PC + pc_offset) % 65536) with
    | (s, a) => some (mem_write s a (s.reg sr), 1)
  else if op = OP_STR then
    let sr := (instr >>> 9) &&& 0x7
    let base_r := (instr >>> 6) &&& 0x7
    let offset := sign_extend (instr &&& 0x3F) 6
    some (mem_write s ((s.reg base_r + offset) % 65536) (s.reg sr), 1)
  else if op = OP_TRAP then
    let vect := instr &&& 0xFF
    if vect = TRAP_GETC then
      match s.input with
      | c :: rest => some (setReg { s with input := rest } R_R0 (c % 65536), 1)
      | [] => some (setReg s R_R0 0xFFFF, 1)
    else if vect = TRAP_OUT then
      some (putOut s [s.reg (R_R0 &&& 0x8) % 256], 1)
    else if vect = TRAP_PUTS then
      some (putOut s (trap_puts_bytes s.mem (s.reg R_R0) 65536), 1)
    else if vect = TRAP_IN then
      let s := putOut s promptMsg
      match s.input with
      | c :: rest =>
        some (setReg (putOut { s with input := rest } [c % 256]) R_R0 (c % 65536), 1)
      | [] => some (setReg (putOut s [0xFF]) R_R0 0xFFFF, 1)
    else if vect = TRAP_PUTSP then
      some (putOut s (trap_putsp_bytes s.mem (s.reg R_R0) 65536), 1)
    else if vect = TRAP_HALT then
      some (putOut s haltMsg, 0)
    else
      some (s, 1)
  else
    none

/-- `read_and_execute_instruction` from the source.  Note `is_max` is the
source's `int is_max = R_PC == UINT16_MAX;` — a comparison of the register
*index* constant with 65535, not of `reg[R_PC]`.  The fetch
`mem_read(reg[R_PC]++)` increments the `uint16_t` program counter (wrapping
mod 2^16) and reads at the pre-increment address.  `none` models
`abort()`; otherwise the result carries the returned `running`/overflow
value (0 stops the loop in `main`). -/
def read_and_execute_instruction (s : VM) : Option (VM × Nat) :=
  let is_max : Bool := R_PC == UINT16_MAX
  let pc := s.reg R_PC
  let s := setReg s R_PC ((pc + 1) % 65536)
  match mem_read s pc with
  | (s, instr) =>
    match exec_instr s instr with
    | none => none
    | some (s, running) =>
      if running ≠ 0 ∧ is_max = true then
        some (putOut s overflowMsg, 0)
      else
        some (s, running)

/-- Words obtained by reading consecutive big-endian byte pairs into host
(little-endian) `uint16_t` cells and then applying `swap16`, as
`read_image_file` does.  A trailing odd byte is not a complete `fread`
element and is not counted by the returned element count. -/
def pairWords : List Nat → List Nat
  | b0 :: b1 :: rest => swap16 (b0 + 256 * b1) :: pairWords rest
  | _ => []

/-- Store a list of words at consecutive addresses starting at `origin`. -/
def load_words (mem : Nat → Nat) (origin : Nat) : List Nat → (Nat → Nat)
  | [] => mem
  | w :: ws => load_words (writeArr mem origin w) (origin + 1) ws

/-- `read_image_file` from the source.  The first `fread` into `origin` is
unchecked: when the stream holds fewer than 2 bytes it reads no complete
element and `origin` keeps its indeterminate stack value, modelled by the
extra parameter `origin_uninit`; `origin = swap16(origin)` runs either
way.  At most `max_read = UINT16_MAX - origin` words are then read from
the rest of the stream and byte-swapped in place. -/
def read_image_file (mem : Nat → Nat) (file : List Nat) (origin_uninit : Nat) :
    Nat → Nat :=
  let origin :=
    match file with
    | b0 :: b1 :: _ => swap16 (b0 + 256 * b1)
    | _ => swap16 origin_uninit
  let max_read := UINT16_MAX - origin
  load_words mem origin ((pairWords (file.drop 2)).take max_read)

/-- `read_image` from the source: `none` models a failed `fopen` (return 0);
an opened stream is loaded with `read_image_file` and 1 is returned. -/
def read_image (mem : Nat → Nat) (file : Option (List Nat)) (origin_uninit : Nat) :
    (Nat → Nat) × Nat :=
  match file with
  | none => (mem, 0)
  | some bytes => (read_image_file mem bytes origin_uninit, 1)

/-- 16-bit two's-complement reading of a machine word. -/
def toSigned16 (v : Nat) : Int :=
  if v < 32768 then (v : Int) else (v : Int) - 65536

/-- Modelled from the spec: "the signed (two's-complement) interpretation of
the low N bits of x" (claim C7's reference value). -/
def signedLowBitsSpec (x N : Nat) : Int :=
  if x % 2 ^ N < 2 ^ (N - 1) then ((x % 2 ^ N : Nat) : Int)
  else ((x % 2 ^ N : Nat) : Int) - ((2 ^ N : Nat) : Int)

/-! ## Concrete machine states used as witnesses and failing inputs -/

/-- All-zero machine state with empty input and output. -/
def vmZero : VM :=
  { mem := fun _ => 0, reg := fun _ => 0, input := [], output := [] }

/-- State whose PC sits at the last address 0xFFFF, which holds the
instruction 0x1042 (ADD R0, R1, R2 — an instruction that does not write
PC). -/
def vmPCMax : VM :=
  { mem := fun a => if a = 0xFFFF then 0x1042 else 0,
    reg := fun r => if r = R_PC then 0xFFFF else 0,
    input := [], output := [] }

/-- State for the PUTS trap: R0 points at 0x4000, which holds the word
0x0041 (ASCII A) followed by a zero terminator. -/
def vmPuts : VM :=
  { mem := fun a => if a = 0x4000 then 0x41 else 0,
    reg := fun r => if r = R_R0 then 0x4000 else 0,
    input := [], output := [] }

/-- State with R1 = 1 and everything else zero (AND-immediate
counterexample). -/
def vmAndImm : VM :=
  { mem := fun _ => 0,
    reg := fun r => if r = R_R1 then 1 else 0,
    input := [], output := [] }

/-- State for the JSRR-through-R7 witness: address 0x3000 (the PC) holds
0x41C0 (JSRR R7) and R7 initially holds the unrelated value 0x1234. -/
def vmJsrr : VM :=
  { mem := fun a => if a = 0x3000 then 0x41C0 else 0,
    reg := fun r => if r = R_PC then 0x3000 else if r = R_R7 then 0x1234 else 0,
    input := [], output := [] }

/-! ## Basic state lemmas -/

@[simp] theorem writeArr_self (f : Nat → Nat) (i v : Nat) : writeArr f i v i = v := by
  simp [writeArr]

theorem writeArr_ne (f : Nat → Nat) {i j : Nat} (v : Nat) (h : j ≠ i) :
    writeArr f i v j = f j := by
  simp [writeArr, h]

@[simp] theorem setReg_reg (s : VM) (r v : Nat) : (setReg s r v).reg = writeArr s.reg r v := rfl

@[simp] theorem setReg_mem (s : VM) (r v : Nat) : (setReg s r v).mem = s.mem := rfl

@[simp] theorem setReg_input (s : VM) (r v : Nat) : (setReg s r v).input = s.input := rfl

@[simp] theorem setReg_output (s : VM) (r v : Nat) : (setReg s r v).output = s.output := rfl

@[simp] theorem mem_write_reg (s : VM) (a v : Nat) : (mem_write s a v).reg = s.reg := rfl

@[simp] theorem mem_write_mem (s : VM) (a v : Nat) : (mem_write s a v).mem = writeArr s.mem a v := rfl

@[simp] theorem mem_write_output (s : VM) (a v : Nat) : (mem_write s a v).output = s.output := rfl

@[simp] theorem putOut_reg (s : VM) (bs : List Nat) : (putOut s bs).reg = s.reg := rfl

@[simp] theorem putOut_mem (s : VM) (bs : List Nat) : (putOut s bs).mem = s.mem := rfl

@[simp] theorem putOut_output (s : VM) (bs : List Nat) : (putOut s bs).output = s.output ++ bs := rfl

theorem mem_read_reg (s : VM) (a : Nat) : (mem_read s a).1.reg = s.reg := by
  by_cases h : a = MR_KBSR
  · cases hi : s.input <;> simp [mem_read, h, hi]
  · simp [mem_read, h]

theorem mem_read_output (s : VM) (a : Nat) : (mem_read s a).1.output = s.output := by
  by_cases h : a = MR_KBSR
  · cases hi : s.input <;> simp [mem_read, h, hi]
  · simp [mem_read, h]

theorem mem_read_mem_wf (s : VM) (a : Nat) (hwf : ∀ b, s.mem b < 65536) :
    ∀ b, (mem_read s a).1.mem b < 65536 := by
  intro b
  by_cases h : a = MR_KBSR
  · subst h
    cases hi : s.input with
    | nil =>
      simp [mem_read, hi, mem_write, writeArr]
      split_ifs <;> first | omega | exact hwf b
    | cons c rest =>
      simp [mem_read, hi, mem_write, writeArr]
      split_ifs <;> first | omega | exact hwf b
  · simpa [mem_read, h] using hwf b

theorem mem_read_val_wf (s : VM) (a : Nat) (hwf : ∀ b, s.mem b < 65536) :
    (mem_read s a).2 < 65536 := by
  by_cases h : a = MR_KBSR
  · subst h
    cases hi : s.input with
    | nil => simp [mem_read, hi, mem_write, writeArr]
    | cons c rest => simp [mem_read, hi, mem_write, writeArr, MR_KBSR, MR_KBDR]
  · simpa [mem_read, h] using hwf a

theorem mem_read_not_kbsr (s : VM) (a : Nat) (h : a ≠ MR_KBSR) :
    mem_read s a = (s, s.mem a) := by
  simp [mem_read, h]

/-! ## update_flags lemmas -/

theorem update_flags_reg_ne (s : VM) (r r' : Nat) (h : r' ≠ R_COND) :
    (update_flags s r).reg r' = s.reg r' := by
  unfold update_flags
  split
  · simp [writeArr_ne _ _ h]
  · split <;> simp [writeArr_ne _ _ h]

theorem update_flags_cond (s : VM) (r : Nat) (hv : s.reg r < 65536) :
    (update_flags s r).reg R_COND =
      (if s.reg r >>> 15 = 1 then FL_NEG
       else if s.reg r = 0 then FL_ZRO
       else FL_POS) := by
  have hsh : s.reg r >>> 15 < 2 := by
    rw [Nat.shiftRight_eq_div_pow]
    omega
  unfold update_flags
  by_cases h0 : s.reg r = 0
  · have : s.reg r >>> 15 = 0 := by rw [h0]; rfl
    simp [h0, this]
  · by_cases hn : s.reg r >>> 15 ≠ 0
    · have h1 : s.reg r >>> 15 = 1 := by omega
      simp [h0, hn, h1]
    · have h1 : ¬ s.reg r >>> 15 = 1 := by omega
      simp [h0, hn, h1]

/-! ## Claim theorems -/

/-- Claim C1.  The claim says that when PC was 0xFFFF before an instruction
that does not write PC, the VM prints "Program counter overflow!" and stops.
The source computes `int is_max = R_PC == UINT16_MAX;`, comparing the
register *index* constant 8 with 65535 — always false — so the diagnostic is
never printed: from the state `vmPCMax` (PC = 0xFFFF, an ADD at 0xFFFF) the
step returns running = 1 with empty output.  This contradicts the claim; the
code is a slip (the intent is `reg[R_PC] == UINT16_MAX`). -/
theorem C1_pc_overflow_never_reported :
    vmPCMax.reg R_PC = 0xFFFF ∧
    (read_and_execute_instruction vmPCMax).map (fun p => (p.1.output, p.2)) =
      some (([] : List Nat), 1) := by
  decide

/-- Claim C2.  The claim says TRAP 0x22 (PUTS) emits the low 8 bits of each
word; the source emits `*word & 0x8` (bit 3 only).  At a word 0x0041 (ASCII
A) the VM outputs the byte 0x00, not 0x41. -/
theorem C2_puts_emits_bit3_not_low_byte :
    vmPuts.reg R_R0 = 0x4000 ∧ vmPuts.mem 0x4000 = 0x41 ∧ vmPuts.mem 0x4001 = 0 ∧
    (exec_instr vmPuts 0xF022).map (fun p => (p.1.output, p.2)) = some ([0x00], 1) ∧
    (0x00 : Nat) ≠ 0x41 := by
  decide

/-- Claim C3.  The claim says an unknown TRAP vector raises IllegalTrap and
the VM does not silently continue.  The trap `switch` in the source has no
`default` case, so any vector other than 0x20–0x25 falls through: the state
is unchanged and `running` stays 1 — the VM silently continues. -/
theorem C3_unknown_trap_vector_continues (s : VM) (instr : Nat)
    (hop : instr >>> 12 = OP_TRAP)
    (h20 : instr &&& 0xFF ≠ TRAP_GETC) (h21 : instr &&& 0xFF ≠ TRAP_OUT)
    (h22 : instr &&& 0xFF ≠ TRAP_PUTS) (h23 : instr &&& 0xFF ≠ TRAP_IN)
    (h24 : instr &&& 0xFF ≠ TRAP_PUTSP) (h25 : instr &&& 0xFF ≠ TRAP_HALT) :
    exec_instr s instr = some (s, 1) := by
  simp [exec_instr, hop, h20, h21, h22, h23, h24, h25,
    OP_BR, OP_ADD, OP_LD, OP_ST, OP_JSR, OP_AND, OP_LDR, OP_STR, OP_RTI,
    OP_NOT, OP_LDI, OP_STI, OP_JMP, OP_RES, OP_LEA, OP_TRAP]

/-- Witness for C3: TRAP vector 0x26 executes and silently continues. -/
theorem C3_unknown_trap_vector_continues_witness :
    exec_instr vmZero 0xF026 = some (vmZero, 1) :=
  C3_unknown_trap_vector_continues vmZero 0xF026 (by decide) (by decide)
    (by decide) (by decide) (by decide) (by decide) (by decide)

/-- Claim C4.  The claim (and the source's own comment "65536 locations")
says memory covers all 65 536 addresses 0x0000–0xFFFF.  The declaration
`uint16_t memory[UINT16_MAX]` allocates only 65 535 cells, so indexing at
address 0xFFFF is out of bounds. -/
theorem C4_memory_last_address_out_of_bounds :
    memoryLength = 65535 ∧ ¬ (0xFFFF < memoryLength) := by
  decide

/-- Claim C5.  The claim says a stream shorter than 2 bytes raises
ImageTruncated and the process exits with code 1 before the fetch-execute
loop.  The source never checks the result of `fread(&origin, ...)`: on a
short stream the loader loads nothing and `read_image` still returns 1
(success), so `main` proceeds into the fetch-execute loop. -/
theorem C5_short_image_load_succeeds (mem : Nat → Nat) (bytes : List Nat)
    (junk : Nat) (h : bytes.length < 2) :
    read_image mem (some bytes) junk = (mem, 1) := by
  cases bytes with
  | nil => simp [read_image, read_image_file, pairWords, load_words]
  | cons b rest =>
    cases rest with
    | nil => simp [read_image, read_image_file, pairWords, load_words]
    | cons b2 r2 => simp at h; omega

/-- Witness for C5: the empty stream loads "successfully". -/
theorem C5_short_image_load_succeeds_witness :
    ([] : List Nat).length < 2 ∧
    read_image (fun _ => 0) (some []) 0 = ((fun _ => (0 : Nat)), 1) :=
  ⟨by decide, C5_short_image_load_succeeds (fun _ => 0) [] 0 (by decide)⟩

/-- Claim C7.  For every 16-bit value x and width N in [1,16],
`sign_extend(x & ((1<<N)-1), N)` read as a signed 16-bit integer equals the
two's-complement interpretation of the low N bits of x. -/
theorem C7_sign_extend_correct (x N : Nat) (hx : x < 65536) (h1 : 1 ≤ N)
    (h16 : N ≤ 16) :
    toSigned16 (sign_extend (x &&& ((1 <<< N) - 1)) N) = signedLowBitsSpec x N := by
  have hmask : x &&& ((1 <<< N) - 1) = x % 2 ^ N := by
    rw [Nat.one_shiftLeft, Nat.and_pow_two_sub_one_eq_mod]
  have hK : 0 < 2 ^ N := pow_pos (by norm_num) N
  have hH : 0 < 2 ^ (N - 1) := pow_pos (by norm_num) (N - 1)
  have hmlt : x % 2 ^ N < 2 ^ N := Nat.mod_lt _ hK
  have hsplit : 2 ^ N = 2 * 2 ^ (N - 1) := by
    conv_lhs => rw [show N = N - 1 + 1 from by omega]
    rw [pow_succ, Nat.mul_comm]
  have hHle : 2 ^ (N - 1) ≤ 32768 := by
    calc 2 ^ (N - 1) ≤ 2 ^ 15 := Nat.pow_le_pow_right (by norm_num) (by omega)
      _ = 32768 := by norm_num
  have h2 : 2 ^ N ≤ 65536 := by
    calc 2 ^ N ≤ 2 ^ 16 := Nat.pow_le_pow_right (by norm_num) h16
      _ = 65536 := by norm_num
  have hdivlt : x % 2 ^ N / 2 ^ (N - 1) < 2 := Nat.div_lt_of_lt_mul (by omega)
  have hbit : ((x % 2 ^ N) >>> (N - 1)) &&& 1 = x % 2 ^ N / 2 ^ (N - 1) := by
    rw [Nat.shiftRight_eq_div_pow, Nat.and_one_is_mod, Nat.mod_eq_of_lt hdivlt]
  rw [hmask]
  unfold sign_extend
  rw [hbit]
  by_cases hc : x % 2 ^ N / 2 ^ (N - 1) = 0
  · have hlow : x % 2 ^ N < 2 ^ (N - 1) := (Nat.div_eq_zero_iff hH).mp hc
    rw [if_neg (not_ne_iff.mpr hc)]
    unfold toSigned16 signedLowBitsSpec
    rw [if_pos (by omega), if_pos hlow]
  · have hge : 2 ^ (N - 1) ≤ x % 2 ^ N := by
      by_contra hlt
      exact hc ((Nat.div_eq_zero_iff hH).mpr (by omega))
    rw [if_pos hc]
    have hor : x % 2 ^ N ||| (0xFFFF <<< N) = 2 ^ N * 65535 + x % 2 ^ N := by
      rw [Nat.shiftLeft_eq, Nat.lor_comm, Nat.mul_comm, ← Nat.mul_add_lt_is_or hmlt]
    rw [hor]
    have hmod : (2 ^ N * 65535 + x % 2 ^ N) % 65536 = 65536 - 2 ^ N + x % 2 ^ N := by
      have e1 : 2 ^ N * 65535 + x % 2 ^ N =
          (65536 - 2 ^ N + x % 2 ^ N) + (2 ^ N - 1) * 65536 := by omega
      rw [e1, Nat.add_mul_mod_self_right]
      exact Nat.mod_eq_of_lt (by omega)
    rw [hmod]
    unfold toSigned16 signedLowBitsSpec
    rw [if_neg (by omega), if_neg (by omega)]
    omega

/-- Witness for C7 at x = 0x1F0, N = 9 (bit 8 set, so the result is
negative). -/
theorem C7_sign_extend_correct_witness :
    (0x1F0 : Nat) < 65536 ∧ (1 : Nat) ≤ 9 ∧ (9 : Nat) ≤ 16 ∧
    toSigned16 (sign_extend (0x1F0 &&& ((1 <<< 9) - 1)) 9) = signedLowBitsSpec 0x1F0 9 :=
  ⟨by decide, by decide, by decide,
    C7_sign_extend_correct 0x1F0 9 (by decide) (by decide) (by decide)⟩

/-- Claim C10.  The register form of JSR (bit 11 = 0) with BaseR = R7 first
saves the incremented PC into R7 (`reg[R_R7] = reg[R_PC]`) and only then
loads PC from the base register, so PC ends up at the address following the
JSR instruction — not at the value R7 held before the instruction (the
conclusion holds for every prior R7 value). -/
theorem C10_jsrr_r7_pc_next (s : VM) (instr : Nat)
    (hpc : s.reg R_PC ≠ MR_KBSR)
    (hfetch : s.mem (s.reg R_PC) = instr)
    (hop : instr >>> 12 = OP_JSR)
    (hmode : (instr >>> 11) &&& 0x1 = 0)
    (hbase : (instr >>> 6) &&& 0x7 = R_R7) :
    ∃ s', read_and_execute_instruction s = some (s', 1) ∧
      s'.reg R_R7 = (s.reg R_PC + 1) % 65536 ∧
      s'.reg R_PC = (s.reg R_PC + 1) % 65536 := by
  have h1 : mem_read (setReg s R_PC ((s.reg R_PC + 1) % 65536)) (s.reg R_PC) =
      (setReg s R_PC ((s.reg R_PC + 1) % 65536), instr) := by
    rw [mem_read_not_kbsr _ _ hpc]
    simp [hfetch]
  have h2 : exec_instr (setReg s R_PC ((s.reg R_PC + 1) % 65536)) instr =
      some (setReg (setReg (setReg s R_PC ((s.reg R_PC + 1) % 65536)) R_R7
              ((setReg s R_PC ((s.reg R_PC + 1) % 65536)).reg R_PC)) R_PC
              ((s.reg R_PC + 1) % 65536), 1) := by
    simp [exec_instr, hop, hmode, hbase,
      OP_BR, OP_ADD, OP_LD, OP_ST, OP_JSR, OP_AND, OP_LDR, OP_STR, OP_RTI,
      OP_NOT, OP_LDI, OP_STI, OP_JMP, OP_RES, OP_LEA, OP_TRAP, R_R7, R_PC,
      writeArr]
  refine ⟨setReg (setReg (setReg s R_PC ((s.reg R_PC + 1) % 65536)) R_R7
            ((setReg s R_PC ((s.reg R_PC + 1) % 65536)).reg R_PC)) R_PC
            ((s.reg R_PC + 1) % 65536), ?_, ?_, ?_⟩
  · simp only [read_and_execute_instruction, h1, h2]
    norm_num [R_PC, UINT16_MAX]
  · simp [writeArr, R_R7, R_PC]
  · simp [writeArr, R_PC]

/-- Witness for C10: from `vmJsrr` (PC = 0x3000 holding JSRR R7, R7 =
0x1234) the step ends with PC = R7 = 0x3001. -/
theorem C10_jsrr_r7_pc_next_witness :
    ∃ s', read_and_execute_instruction vmJsrr = some (s', 1) ∧
      s'.reg R_R7 = (vmJsrr.reg R_PC + 1) % 65536 ∧
      s'.reg R_PC = (vmJsrr.reg R_PC + 1) % 65536 :=
  C10_jsrr_r7_pc_next vmJsrr 0x41C0 (by decide) (by decide) (by decide)
    (by decide) (by decide)

/-- Joint characterization of `update_flags` applied right after a
destination-register write: the destination keeps its value and COND gets
the N/Z/P flag of that value. -/
theorem update_flags_setReg_props (s : VM) (dr v : Nat) (hdr : dr ≠ R_COND)
    (hv : v < 65536) :
    (update_flags (setReg s dr v) dr).reg dr = v ∧
    (update_flags (setReg s dr v) dr).reg R_COND =
      (if v >>> 15 = 1 then FL_NEG else if v = 0 then FL_ZRO else FL_POS) := by
  have h1 : (setReg s dr v).reg dr = v := by simp [writeArr]
  refine ⟨?_, ?_⟩
  · rw [update_flags_reg_ne _ _ _ hdr, h1]
  · rw [update_flags_cond _ _ (by rw [h1]; exact hv), h1]

/-- Post-state properties shared by every flag-setting handler: COND holds
exactly one of the three flags, the destination register holds a 16-bit
value, and COND is the claim's N/Z/P choice for that value. -/
theorem exec_flag_post (s0 : VM) (dr v : Nat) (hdr : dr ≠ R_COND)
    (hv : v < 65536) :
    ((update_flags (setReg s0 dr v) dr).reg R_COND = FL_NEG ∨
     (update_flags (setReg s0 dr v) dr).reg R_COND = FL_ZRO ∨
     (update_flags (setReg s0 dr v) dr).reg R_COND = FL_POS) ∧
    (update_flags (setReg s0 dr v) dr).reg dr < 65536 ∧
    (update_flags (setReg s0 dr v) dr).reg R_COND =
      (if ((update_flags (setReg s0 dr v) dr).reg dr) >>> 15 = 1 then FL_NEG
       else if (update_flags (setReg s0 dr v) dr).reg dr = 0 then FL_ZRO
       else FL_POS) := by
  obtain ⟨h1, h2⟩ := update_flags_setReg_props s0 dr v hdr hv
  refine ⟨?_, ?_, ?_⟩
  · rw [h2]; split_ifs <;> simp
  · rw [h1]; exact hv
  · rw [h2, h1]

/-- Claim C6.  After any flag-setting instruction (ADD, AND, NOT, LD, LDI,
LDR, LEA) on a state with 16-bit memory contents, COND holds exactly one of
N (0b100), Z (0b010), P (0b001), chosen from the destination register's new
16-bit value: N if bit 15 is 1, Z if the value is 0, P otherwise. -/
theorem C6_flag_setting_sets_cond (s : VM) (instr : Nat)
    (hwf : ∀ a, s.mem a < 65536)
    (hop : instr >>> 12 = OP_ADD ∨ instr >>> 12 = OP_AND ∨ instr >>> 12 = OP_NOT ∨
           instr >>> 12 = OP_LD ∨ instr >>> 12 = OP_LDI ∨ instr >>> 12 = OP_LDR ∨
           instr >>> 12 = OP_LEA) :
    ∃ s', exec_instr s instr = some (s', 1) ∧
      (s'.reg R_COND = FL_NEG ∨ s'.reg R_COND = FL_ZRO ∨ s'.reg R_COND = FL_POS) ∧
      s'.reg ((instr >>> 9) &&& 0x7) < 65536 ∧
      s'.reg R_COND =
        (if (s'.reg ((instr >>> 9) &&& 0x7)) >>> 15 = 1 then FL_NEG
         else if s'.reg ((instr >>> 9) &&& 0x7) = 0 then FL_ZRO
         else FL_POS) := by
  have hdr : (instr >>> 9) &&& 0x7 ≠ R_COND := by
    have h7 : (instr >>> 9) &&& 0x7 ≤ 7 := Nat.and_le_right
    simp only [R_COND]
    omega
  rcases hop with h | h | h | h | h | h | h
  · -- OP_ADD
    by_cases hi : instr >>> 5 % 2 = 1
    · have hexec : exec_instr s instr = some (update_flags (setReg s
          ((instr >>> 9) &&& 0x7)
          ((s.reg ((instr >>> 6) &&& 0x7) + sign_extend (instr &&& 0x1F) 5) % 65536))
          ((instr >>> 9) &&& 0x7), 1) := by
        simp [exec_instr, h, hi,
          OP_BR, OP_ADD, OP_LD, OP_ST, OP_JSR, OP_AND, OP_LDR, OP_STR, OP_RTI,
          OP_NOT, OP_LDI, OP_STI, OP_JMP, OP_RES, OP_LEA, OP_TRAP]
      have hv : (s.reg ((instr >>> 6) &&& 0x7) + sign_extend (instr &&& 0x1F) 5) % 65536
          < 65536 := Nat.mod_lt _ (by norm_num)
      exact ⟨_, hexec, exec_flag_post _ _ _ hdr hv⟩
    · have hi0 : instr >>> 5 % 2 = 0 := by omega
      have hexec : exec_instr s instr = some (update_flags (setReg s
          ((instr >>> 9) &&& 0x7)
          ((s.reg ((instr >>> 6) &&& 0x7) + s.reg (instr &&& 0x7)) % 65536))
          ((instr >>> 9) &&& 0x7), 1) := by
        simp [exec_instr, h, hi0,
          OP_BR, OP_ADD, OP_LD, OP_ST, OP_JSR, OP_AND, OP_LDR, OP_STR, OP_RTI,
          OP_NOT, OP_LDI, OP_STI, OP_JMP, OP_RES, OP_LEA, OP_TRAP]
      have hv : (s.reg ((instr >>> 6) &&& 0x7) + s.reg (instr &&& 0x7)) % 65536
          < 65536 := Nat.mod_lt _ (by norm_num)
      exact ⟨_, hexec, exec_flag_post _ _ _ hdr hv⟩
  · -- OP_AND
    by_cases hi : instr >>> 5 % 2 = 1
    · have hexec : exec_instr s instr = some (update_flags (setReg s
          ((instr >>> 9) &&& 0x7)
          ((s.reg ((instr >>> 6) &&& 0x7) &&& sign_extend (instr &&& 0x1F) 5) % 65536))
          ((instr >>> 9) &&& 0x7), 1) := by
        simp [exec_instr, h, hi,
          OP_BR, OP_ADD, OP_LD, OP_ST, OP_JSR, OP_AND, OP_LDR, OP_STR, OP_RTI,
          OP_NOT, OP_LDI, OP_STI, OP_JMP, OP_RES, OP_LEA, OP_TRAP]
      have hv : (s.reg ((instr >>> 6) &&& 0x7) &&& sign_extend (instr &&& 0x1F) 5) % 65536
          < 65536 := Nat.mod_lt _ (by norm_num)
      exact ⟨_, hexec, exec_flag_post _ _ _ hdr hv⟩
    · have hi0 : instr >>> 5 % 2 = 0 := by omega
      have hexec : exec_instr s instr = some (update_flags (setReg s
          ((instr >>> 9) &&& 0x7)
          ((s.reg ((instr >>> 6) &&& 0x7) &&& s.reg (instr &&& 0x7)) % 65536))
          ((instr >>> 9) &&& 0x7), 1) := by
        simp [exec_instr, h, hi0,
          OP_BR, OP_ADD, OP_LD, OP_ST, OP_JSR, OP_AND, OP_LDR, OP_STR, OP_RTI,
          OP_NOT, OP_LDI, OP_STI, OP_JMP, OP_RES, OP_LEA, OP_TRAP]
      have hv : (s.reg ((instr >>> 6) &&& 0x7) &&& s.reg (instr &&& 0x7)) % 65536
          < 65536 := Nat.mod_lt _ (by norm_num)
      exact ⟨_, hexec, exec_flag_post _ _ _ hdr hv⟩
  · -- OP_NOT
    have hexec : exec_instr s instr = some (update_flags (setReg s
        ((instr >>> 9) &&& 0x7)
        ((s.reg ((instr >>> 6) &&& 0x7) ^^^ 0xFFFF) % 65536))
        ((instr >>> 9) &&& 0x7), 1) := by
      simp [exec_instr, h,
        OP_BR, OP_ADD, OP_LD, OP_ST, OP_JSR, OP_AND, OP_LDR, OP_STR, OP_RTI,
        OP_NOT, OP_LDI, OP_STI, OP_JMP, OP_RES, OP_LEA, OP_TRAP]
    have hv : (s.reg ((instr >>> 6) &&& 0x7) ^^^ 0xFFFF) % 65536 < 65536 :=
      Nat.mod_lt _ (by norm_num)
    exact ⟨_, hexec, exec_flag_post _ _ _ hdr hv⟩
  · -- OP_LD
    rcases hmr : mem_read s ((s.reg R_PC + sign_extend (instr &&& 0x1FF) 9) % 65536)
      with ⟨s2, v⟩
    have hexec : exec_instr s instr =
        some (update_flags (setReg s2 ((instr >>> 9) &&& 0x7) v)
          ((instr >>> 9) &&& 0x7), 1) := by
      simp [exec_instr, h, hmr,
        OP_BR, OP_ADD, OP_LD, OP_ST, OP_JSR, OP_AND, OP_LDR, OP_STR, OP_RTI,
        OP_NOT, OP_LDI, OP_STI, OP_JMP, OP_RES, OP_LEA, OP_TRAP]
    have hv : v < 65536 := by
      have := mem_read_val_wf s ((s.reg R_PC + sign_extend (instr &&& 0x1FF) 9) % 65536) hwf
      rw [hmr] at this
      exact this
    exact ⟨_, hexec, exec_flag_post _ _ _ hdr hv⟩
  · -- OP_LDI
    rcases hmr1 : mem_read s ((s.reg R_PC + sign_extend (instr &&& 0x1FF) 9) % 65536)
      with ⟨s2, a⟩
    rcases hmr2 : mem_read s2 a with ⟨s3, v⟩
    have hexec : exec_instr s instr =
        some (update_flags (setReg s3 ((instr >>> 9) &&& 0x7) v)
          ((instr >>> 9) &&& 0x7), 1) := by
      simp [exec_instr, h, hmr1, hmr2,
        OP_BR, OP_ADD, OP_LD, OP_ST, OP_JSR, OP_AND, OP_LDR, OP_STR, OP_RTI,
        OP_NOT, OP_LDI, OP_STI, OP_JMP, OP_RES, OP_LEA, OP_TRAP]
    have hwf2 : ∀ b, s2.mem b < 65536 := by
      have := mem_read_mem_wf s ((s.reg R_PC + sign_extend (instr &&& 0x1FF) 9) % 65536) hwf
      rw [hmr1] at this
      exact this
    have hv : v < 65536 := by
      have := mem_read_val_wf s2 a hwf2
      rw [hmr2] at this
      exact this
    exact ⟨_, hexec, exec_flag_post _ _ _ hdr hv⟩
  · -- OP_LDR
    rcases hmr : mem_read s ((s.reg ((instr >>> 6) &&& 0x7) + sign_extend (instr &&& 0x3F) 6) % 65536)
      with ⟨s2, v⟩
    have hexec : exec_instr s instr =
        some (update_flags (setReg s2 ((instr >>> 9) &&& 0x7) v)
          ((instr >>> 9) &&& 0x7), 1) := by
      simp [exec_instr, h, hmr,
        OP_BR, OP_ADD, OP_LD, OP_ST, OP_JSR, OP_AND, OP_LDR, OP_STR, OP_RTI,
        OP_NOT, OP_LDI, OP_STI, OP_JMP, OP_RES, OP_LEA, OP_TRAP]
    have hv : v < 65536 := by
      have := mem_read_val_wf s ((s.reg ((instr >>> 6) &&& 0x7) + sign_extend (instr &&& 0x3F) 6) % 65536) hwf
      rw [hmr] at this
      exact this
    exact ⟨_, hexec, exec_flag_post _ _ _ hdr hv⟩
  · -- OP_LEA
    have hexec : exec_instr s instr = some (update_flags (setReg s
        ((instr >>> 9) &&& 0x7)
        ((s.reg R_PC + sign_extend (instr &&& 0x1FF) 9) % 65536))
        ((instr >>> 9) &&& 0x7), 1) := by
      simp [exec_instr, h,
        OP_BR, OP_ADD, OP_LD, OP_ST, OP_JSR, OP_AND, OP_LDR, OP_STR, OP_RTI,
        OP_NOT, OP_LDI, OP_STI, OP_JMP, OP_RES, OP_LEA, OP_TRAP]
    have hv : (s.reg R_PC + sign_extend (instr &&& 0x1FF) 9) % 65536 < 65536 :=
      Nat.mod_lt _ (by norm_num)
    exact ⟨_, hexec, exec_flag_post _ _ _ hdr hv⟩

/-- Witness for C6: ADD R0, R1, R2 on the all-zero state ends with R0 = 0
and COND = Z. -/
theorem C6_flag_setting_sets_cond_witness :
    ∃ s', exec_instr vmZero 0x1042 = some (s', 1) ∧
      (s'.reg R_COND = FL_NEG ∨ s'.reg R_COND = FL_ZRO ∨ s'.reg R_COND = FL_POS) ∧
      s'.reg ((0x1042 >>> 9) &&& 0x7) < 65536 ∧
      s'.reg R_COND =
        (if (s'.reg ((0x1042 >>> 9) &&& 0x7)) >>> 15 = 1 then FL_NEG
         else if s'.reg ((0x1042 >>> 9) &&& 0x7) = 0 then FL_ZRO
         else FL_POS) :=
  C6_flag_setting_sets_cond vmZero 0x1042
    (fun a => (by norm_num : (0 : Nat) < 65536)) (by decide)

/-- Claim C8 counterexample.  The claim says AND immediate with imm = 0 is
a register-to-register copy of SR1 into DR, like ADD.  It is not: AND with
0 clears DR.  With prior R1 = 1, `AND R0, R1, #0` (0x5060) leaves R0 = 0,
not the prior R1 value 1. -/
theorem C8_and_imm0_not_copy_counterexample :
    vmAndImm.reg ((0x5060 >>> 6) &&& 0x7) = 1 ∧
    (exec_instr vmAndImm 0x5060).map (fun p => p.1.reg ((0x5060 >>> 9) &&& 0x7)) =
      some 0 ∧
    ¬ ((exec_instr vmAndImm 0x5060).map (fun p => p.1.reg ((0x5060 >>> 9) &&& 0x7)) =
        some (vmAndImm.reg ((0x5060 >>> 6) &&& 0x7))) := by
  decide

/-- Claim C8 (amended).  For every machine state, the ADD immediate form
with imm = 0 copies R[SR1] into R[DR], while the AND immediate form with
imm = 0 sets R[DR] to 0; both set the condition flags on DR. -/
theorem C8_add_imm0_copies_and_imm0_clears (s : VM) (instr : Nat)
    (hb : s.reg ((instr >>> 6) &&& 0x7) < 65536)
    (himm : (instr >>> 5) &&& 0x1 = 1)
    (h0 : instr &&& 0x1F = 0)
    (hop : instr >>> 12 = OP_ADD ∨ instr >>> 12 = OP_AND) :
    ∃ s', exec_instr s instr = some (s', 1) ∧
      s'.reg ((instr >>> 9) &&& 0x7) =
        (if instr >>> 12 = OP_ADD then s.reg ((instr >>> 6) &&& 0x7) else 0) ∧
      s'.reg R_COND =
        (if (s'.reg ((instr >>> 9) &&& 0x7)) >>> 15 = 1 then FL_NEG
         else if s'.reg ((instr >>> 9) &&& 0x7) = 0 then FL_ZRO
         else FL_POS) := by
  have hdr : (instr >>> 9) &&& 0x7 ≠ R_COND := by
    have h7 : (instr >>> 9) &&& 0x7 ≤ 7 := Nat.and_le_right
    simp only [R_COND]
    omega
  have hi : instr >>> 5 % 2 = 1 := by
    have := Nat.and_one_is_mod (instr >>> 5)
    omega
  have hse : sign_extend (instr &&& 0x1F) 5 = 0 := by rw [h0]; decide
  rcases hop with h | h
  · have hexec : exec_instr s instr = some (update_flags (setReg s
        ((instr >>> 9) &&& 0x7) (s.reg ((instr >>> 6) &&& 0x7)))
        ((instr >>> 9) &&& 0x7), 1) := by
      simp [exec_instr, h, hi, hse, Nat.mod_eq_of_lt hb,
        OP_BR, OP_ADD, OP_LD, OP_ST, OP_JSR, OP_AND, OP_LDR, OP_STR, OP_RTI,
        OP_NOT, OP_LDI, OP_STI, OP_JMP, OP_RES, OP_LEA, OP_TRAP]
    obtain ⟨h1, h2⟩ := update_flags_setReg_props s ((instr >>> 9) &&& 0x7)
      (s.reg ((instr >>> 6) &&& 0x7)) hdr hb
    refine ⟨_, hexec, ?_, ?_⟩
    · simp [h, h1]
    · rw [h2, h1]
  · have hexec : exec_instr s instr = some (update_flags (setReg s
        ((instr >>> 9) &&& 0x7) 0) ((instr >>> 9) &&& 0x7), 1) := by
      simp [exec_instr, h, hi, hse,
        OP_BR, OP_ADD, OP_LD, OP_ST, OP_JSR, OP_AND, OP_LDR, OP_STR, OP_RTI,
        OP_NOT, OP_LDI, OP_STI, OP_JMP, OP_RES, OP_LEA, OP_TRAP]
    obtain ⟨h1, h2⟩ := update_flags_setReg_props s ((instr >>> 9) &&& 0x7) 0 hdr
      (by norm_num)
    have hne : ¬ (instr >>> 12 = OP_ADD) := by rw [h]; decide
    refine ⟨_, hexec, ?_, ?_⟩
    · simp [hne, h1]
    · rw [h2, h1]

/-- Witness for C8 (amended) at ADD R0, R1, #0 (0x1060) with R1 = 1. -/
theorem C8_add_imm0_copies_and_imm0_clears_witness :
    ∃ s', exec_instr vmAndImm 0x1060 = some (s', 1) ∧
      s'.reg ((0x1060 >>> 9) &&& 0x7) =
        (if 0x1060 >>> 12 = OP_ADD then vmAndImm.reg ((0x1060 >>> 6) &&& 0x7) else 0) ∧
      s'.reg R_COND =
        (if (s'.reg ((0x1060 >>> 9) &&& 0x7)) >>> 15 = 1 then FL_NEG
         else if s'.reg ((0x1060 >>> 9) &&& 0x7) = 0 then FL_ZRO
         else FL_POS) :=
  C8_add_imm0_copies_and_imm0_clears vmAndImm 0x1060 (by decide) (by decide)
    (by decide) (Or.inl (by decide))

@[simp] theorem putOut_input (s : VM) (bs : List Nat) : (putOut s bs).input = s.input := rfl

/-- Claim C9.  Executing any of the non-flag-setting instructions BR, JMP,
JSR/JSRR, ST, STI, STR, or TRAP (any vector, known or unknown) leaves the
COND register unchanged, for every machine state. -/
theorem C9_non_flag_setting_preserves_cond (s : VM) (instr : Nat)
    (hop : instr >>> 12 = OP_BR ∨ instr >>> 12 = OP_JMP ∨ instr >>> 12 = OP_JSR ∨
           instr >>> 12 = OP_ST ∨ instr >>> 12 = OP_STI ∨ instr >>> 12 = OP_STR ∨
           instr >>> 12 = OP_TRAP) :
    ∃ p : VM × Nat, exec_instr s instr = some p ∧ p.1.reg R_COND = s.reg R_COND := by
  rcases hop with h | h | h | h | h | h | h
  · -- OP_BR
    simp only [exec_instr, h,
      OP_BR, OP_ADD, OP_LD, OP_ST, OP_JSR, OP_AND, OP_LDR, OP_STR, OP_RTI,
      OP_NOT, OP_LDI, OP_STI, OP_JMP, OP_RES, OP_LEA, OP_TRAP]
    norm_num
    split_ifs <;> simp [writeArr, R_PC, R_COND]
  · -- OP_JMP
    simp [exec_instr, h, writeArr, R_PC, R_COND,
      OP_BR, OP_ADD, OP_LD, OP_ST, OP_JSR, OP_AND, OP_LDR, OP_STR, OP_RTI,
      OP_NOT, OP_LDI, OP_STI, OP_JMP, OP_RES, OP_LEA, OP_TRAP]
  · -- OP_JSR
    simp only [exec_instr, h,
      OP_BR, OP_ADD, OP_LD, OP_ST, OP_JSR, OP_AND, OP_LDR, OP_STR, OP_RTI,
      OP_NOT, OP_LDI, OP_STI, OP_JMP, OP_RES, OP_LEA, OP_TRAP]
    norm_num
    split_ifs <;> simp [writeArr, R_PC, R_R7, R_COND]
  · -- OP_ST
    simp [exec_instr, h,
      OP_BR, OP_ADD, OP_LD, OP_ST, OP_JSR, OP_AND, OP_LDR, OP_STR, OP_RTI,
      OP_NOT, OP_LDI, OP_STI, OP_JMP, OP_RES, OP_LEA, OP_TRAP]
  · -- OP_STI
    rcases hmr : mem_read s ((s.reg R_PC + sign_extend (instr &&& 0x1FF) 9) % 65536)
      with ⟨s2, a⟩
    have hreg : s2.reg = s.reg := by
      have := mem_read_reg s ((s.reg R_PC + sign_extend (instr &&& 0x1FF) 9) % 65536)
      rw [hmr] at this
      exact this
    simp [exec_instr, h, hmr, hreg,
      OP_BR, OP_ADD, OP_LD, OP_ST, OP_JSR, OP_AND, OP_LDR, OP_STR, OP_RTI,
      OP_NOT, OP_LDI, OP_STI, OP_JMP, OP_RES, OP_LEA, OP_TRAP]
  · -- OP_STR
    simp [exec_instr, h,
      OP_BR, OP_ADD, OP_LD, OP_ST, OP_JSR, OP_AND, OP_LDR, OP_STR, OP_RTI,
      OP_NOT, OP_LDI, OP_STI, OP_JMP, OP_RES, OP_LEA, OP_TRAP]
  · -- OP_TRAP
    by_cases h20 : instr &&& 0xFF = TRAP_GETC
    · rcases hin : s.input with _ | ⟨c, rest⟩ <;>
        simp [exec_instr, h, h20, hin, writeArr, R_R0, R_COND,
          OP_BR, OP_ADD, OP_LD, OP_ST, OP_JSR, OP_AND, OP_LDR, OP_STR, OP_RTI,
          OP_NOT, OP_LDI, OP_STI, OP_JMP, OP_RES, OP_LEA, OP_TRAP,
          TRAP_GETC, TRAP_OUT, TRAP_PUTS, TRAP_IN, TRAP_PUTSP, TRAP_HALT, writeArr, R_R0, R_COND]
    · by_cases h21 : instr &&& 0xFF = TRAP_OUT
      · simp [exec_instr, h, h20, h21,
          OP_BR, OP_ADD, OP_LD, OP_ST, OP_JSR, OP_AND, OP_LDR, OP_STR, OP_RTI,
          OP_NOT, OP_LDI, OP_STI, OP_JMP, OP_RES, OP_LEA, OP_TRAP,
          TRAP_GETC, TRAP_OUT, TRAP_PUTS, TRAP_IN, TRAP_PUTSP, TRAP_HALT, writeArr, R_R0, R_COND]
      · by_cases h22 : instr &&& 0xFF = TRAP_PUTS
        · simp [exec_instr, h, h20, h21, h22,
            OP_BR, OP_ADD, OP_LD, OP_ST, OP_JSR, OP_AND, OP_LDR, OP_STR, OP_RTI,
            OP_NOT, OP_LDI, OP_STI, OP_JMP, OP_RES, OP_LEA, OP_TRAP,
          TRAP_GETC, TRAP_OUT, TRAP_PUTS, TRAP_IN, TRAP_PUTSP, TRAP_HALT, writeArr, R_R0, R_COND]
        · by_cases h23 : instr &&& 0xFF = TRAP_IN
          · rcases hin : s.input with _ | ⟨c, rest⟩ <;>
              simp [exec_instr, h, h20, h21, h22, h23, hin, writeArr, R_R0, R_COND,
                OP_BR, OP_ADD, OP_LD, OP_ST, OP_JSR, OP_AND, OP_LDR, OP_STR, OP_RTI,
                OP_NOT, OP_LDI, OP_STI, OP_JMP, OP_RES, OP_LEA, OP_TRAP,
          TRAP_GETC, TRAP_OUT, TRAP_PUTS, TRAP_IN, TRAP_PUTSP, TRAP_HALT, writeArr, R_R0, R_COND]
          · by_cases h24 : instr &&& 0xFF = TRAP_PUTSP
            · simp [exec_instr, h, h20, h21, h22, h23, h24,
                OP_BR, OP_ADD, OP_LD, OP_ST, OP_JSR, OP_AND, OP_LDR, OP_STR, OP_RTI,
                OP_NOT, OP_LDI, OP_STI, OP_JMP, OP_RES, OP_LEA, OP_TRAP,
          TRAP_GETC, TRAP_OUT, TRAP_PUTS, TRAP_IN, TRAP_PUTSP, TRAP_HALT, writeArr, R_R0, R_COND]
            · by_cases h25 : instr &&& 0xFF = TRAP_HALT
              · simp [exec_instr, h, h20, h21, h22, h23, h24, h25,
                  OP_BR, OP_ADD, OP_LD, OP_ST, OP_JSR, OP_AND, OP_LDR, OP_STR, OP_RTI,
                  OP_NOT, OP_LDI, OP_STI, OP_JMP, OP_RES, OP_LEA, OP_TRAP,
          TRAP_GETC, TRAP_OUT, TRAP_PUTS, TRAP_IN, TRAP_PUTSP, TRAP_HALT, writeArr, R_R0, R_COND]
              · simp [exec_instr, h, h20, h21, h22, h23, h24, h25,
                  OP_BR, OP_ADD, OP_LD, OP_ST, OP_JSR, OP_AND, OP_LDR, OP_STR, OP_RTI,
                  OP_NOT, OP_LDI, OP_STI, OP_JMP, OP_RES, OP_LEA, OP_TRAP]

/-- Witness for C9: ST R0, #1 (0x3001) on the all-zero state. -/
theorem C9_non_flag_setting_preserves_cond_witness :
    ∃ p : VM × Nat, exec_instr vmZero 0x3001 = some p ∧
      p.1.reg R_COND = vmZero.reg R_COND :=
  C9_non_flag_setting_preserves_cond vmZero 0x3001
    (Or.inr (Or.inr (Or.inr (Or.inl (by decide)))))
